import Mathlib

/-!
Verification of the voice-ops event ingestion pipeline
(`backend/voiceops/event_handler.py` together with the table constraints
declared in `backend/voiceops/models.py`).

The embedding is shallow: payloads are Lean structures mirroring the keys
the handler reads, the database is a record of lists of rows, and the
Python functions `get_or_create_call`, `store_event_in_database` and
`process_and_emit_event` become pure Lean functions that thread the
database state explicitly.  A Python exception caught by the surrounding
`try`/`except` is modelled as an `Option`/`Bool` failure result carrying
the database state as mutated so far (the store has no transactions, so
sub-operations committed before the raise are kept).
-/

namespace VoiceOps

/-- Substring containment on char lists: `containsSub pat s` is true when
`pat` occurs contiguously inside `s`, modelling Python's `pat in s`. -/
def containsSub (pat : List Char) : List Char → Bool
  | [] => pat.isEmpty
  | c :: rest => pat.isPrefixOf (c :: rest) || containsSub pat rest

/-- Python's `pat in s` for strings. -/
def strContains (s pat : String) : Bool :=
  containsSub pat.toList s.toList

/-- Python `dict.get(k)` on a flat string-to-string mapping. -/
def pget (m : List (String × String)) (k : String) : Option String :=
  (m.find? (fun p => p.1 == k)).map (fun p => p.2)

/-- Python `dict.get(k, d)` on a flat string-to-string mapping. -/
def pgetD (m : List (String × String)) (k d : String) : String :=
  (pget m k).getD d

/-- Python truthiness of an optional string: `None` and `""` are falsy. -/
def truthy : Option String → Bool
  | none => false
  | some s => !(s == "")

/-- Python `o or d` for an optional string (used for the emitted
timestamp: `event_data.get('time') or datetime.now().isoformat()`). -/
def pyOr (o : Option String) (d : String) : String :=
  match o with
  | some s => if s == "" then d else s
  | none => d

/-- The value under a payload's `request` key: a mapping that may or may
not carry a `parameters` sub-mapping. -/
structure RequestData where
  parameters : Option (List (String × String))
  deriving DecidableEq

/-- The value under a payload's `data` key, restricted to the fields the
handler reads. -/
structure DataField where
  request : Option RequestData
  error_code : Option String
  level : Option String
  correlation_sid : Option String
  deriving DecidableEq

/-- An inbound webhook payload, restricted to the keys the handler reads.
`none` models an absent key. -/
structure EventData where
  type : Option String
  id : Option String
  time : Option String
  data : Option DataField
  request : Option RequestData
  deriving DecidableEq

/-- `event_data.get('data', {})`: the empty mapping used when `data` is
absent. -/
def emptyDataField : DataField := ⟨none, none, none, none⟩

/-- The `elif 'request' in event_data` fallback of the parameter probing
(lines 29-30 of `event_handler.py`). -/
def topRequestParams (ed : EventData) : List (String × String) :=
  match ed.request with
  | some r => r.parameters.getD []
  | none => []

/-- Parameter extraction (lines 25-30 of `event_handler.py`, repeated at
lines 198-202): probe `data.request.parameters`, then
`request.parameters`, else the empty mapping. -/
def extractParams (ed : EventData) : List (String × String) :=
  match ed.data with
  | some dd =>
    match dd.request with
    | some r => r.parameters.getD []
    | none => topRequestParams ed
  | none => topRequestParams ed

/-- `munchDigits n s` greedily consumes up to `n` leading decimal digits
of `s`, returning how many were consumed and the remainder. -/
def munchDigits : Nat → List Char → Nat × List Char
  | 0, s => (0, s)
  | _ + 1, [] => (0, [])
  | n + 1, c :: rest =>
    if c.isDigit then
      let p := munchDigits n rest
      (p.1 + 1, p.2)
    else (0, c :: rest)

/-- Recogniser for the optional timezone suffix and end of input of
Django's datetime format: empty, `Z`, or a `+`/`-` UTC offset. -/
def tzEnd : List Char → Bool
  | [] => true
  | ['Z'] => true
  | c :: rest =>
    (c == '+' || c == '-') &&
      (match rest with
        | a :: b :: rest2 =>
          a.isDigit && b.isDigit &&
            (match rest2 with
              | [] => true
              | ':' :: x :: y :: ([] : List Char) => x.isDigit && y.isDigit
              | x :: y :: ([] : List Char) => x.isDigit && y.isDigit
              | _ => false)
        | _ => false)

/-- After the seconds field: an optional fractional part (`.` or `,` then
one to twelve digits), then the timezone suffix and end of input. -/
def afterSecond (s : List Char) : Bool :=
  match s with
  | c :: rest =>
    if c == '.' || c == ',' then
      let p := munchDigits 12 rest
      decide (1 ≤ p.1) && tzEnd p.2
    else tzEnd s
  | [] => true

/-- After the minutes field: an optional `:seconds` part with optional
fraction, then the timezone suffix and end of input. -/
def afterMinute (s : List Char) : Bool :=
  match s with
  | ':' :: rest =>
    let p := munchDigits 2 rest
    if 1 ≤ p.1 then afterSecond p.2 else tzEnd s
  | _ => tzEnd s

/-- Model of `django.utils.dateparse.parse_datetime` as used at line 78:
a recogniser for the library's datetime format
(`YYYY-M?M-D?D[T ]H?H:M?M(:S?S(.frac)?)?(Z|±HH(:?MM)?)?`), returning the
string itself as the abstract datetime value on success and `none` when
the string does not match (the handler then stores `None` and the
NOT NULL timestamp column rejects the row).  Well-formed strings whose
field values are out of range (e.g. month 13) make the library raise
instead of returning `None`; no theorem below evaluates such an input. -/
def parse_datetime (s : String) : Option String :=
  let l := s.toList
  let y := munchDigits 4 l
  if y.1 == 4 then
    match y.2 with
    | '-' :: r1 =>
      let mo := munchDigits 2 r1
      if 1 ≤ mo.1 then
        match mo.2 with
        | '-' :: r2 =>
          let d := munchDigits 2 r2
          if 1 ≤ d.1 then
            match d.2 with
            | sep :: r3 =>
              if sep == 'T' || sep == ' ' then
                let h := munchDigits 2 r3
                if 1 ≤ h.1 then
                  match h.2 with
                  | ':' :: r4 =>
                    let mi := munchDigits 2 r4
                    if 1 ≤ mi.1 && afterMinute mi.2 then some s else none
                  | _ => none
                else none
              else none
            | [] => none
          else none
        | _ => none
      else none
    | _ => none
  else none

/-- The JSONField blob stored in a row: either the full raw payload
(events and calls created from events) or the note mapping written for a
placeholder call. -/
inductive AdditionalData
  | payload (ed : EventData)
  | note (s : String)
  deriving DecidableEq

/-- A row of the `calls` table (`models.Call`).  All character columns
are NOT NULL, so a committed row always holds strings. -/
structure CallRow where
  call_sid : String
  account_sid : String
  direction : String
  from_number : String
  to_number : String
  call_status : String
  additional_data : AdditionalData
  deriving DecidableEq

/-- A row of one of the four call-event tables (`models.CallInitiatedEvent`
and friends): `event_id` is the primary key, `call_sid` a required
foreign key, `timestamp` NOT NULL. -/
structure CallEventRow where
  event_id : String
  call_sid : String
  timestamp : String
  additional_data : AdditionalData
  deriving DecidableEq

/-- A row of the `error_events` table (`models.ErrorEvent`):
`resource_sid` is a nullable foreign key. -/
structure ErrorEventRow where
  event_id : String
  resource_sid : Option String
  timestamp : String
  error_code : String
  error_message : String
  additional_data : AdditionalData
  deriving DecidableEq

/-- The database: one list of rows per table. -/
structure DB where
  calls : List CallRow
  initiated : List CallEventRow
  ringing : List CallEventRow
  answered : List CallEventRow
  completed : List CallEventRow
  errors : List ErrorEventRow
  deriving DecidableEq

def emptyDB : DB := ⟨[], [], [], [], [], []⟩

/-- Sequential merge of the non-key fields into an existing call
(lines 54-63 of `event_handler.py`): `from_number`, `to_number` and
`direction` are written only when the new value is truthy and the current
one falsy; `call_status` is written whenever the new value is truthy. -/
def updateCallFields (call : CallRow) (from_number to_number direction : Option String)
    (call_status : String) : CallRow :=
  let c1 := match from_number with
    | some s => if !(s == "") && call.from_number == "" then { call with from_number := s } else call
    | none => call
  let c2 := match to_number with
    | some s => if !(s == "") && c1.to_number == "" then { c1 with to_number := s } else c1
    | none => c1
  let c3 := match direction with
    | some s => if !(s == "") && c2.direction == "" then { c2 with direction := s } else c2
    | none => c2
  if !(call_status == "") then { c3 with call_status := call_status } else c3

/-- The UPDATE issued by `call.save()`: replace the row with matching
primary key. -/
def replaceCall (calls : List CallRow) (c : CallRow) : List CallRow :=
  calls.map (fun r => if r.call_sid == c.call_sid then c else r)

/-- `get_or_create_call` (lines 21-65 of `event_handler.py`).  `none`
models the `ValueError` raised when `CallSid` is missing or falsy, and
the `IntegrityError` raised when creation would write `None` into one of
the NOT NULL columns `direction`, `from_number`, `to_number`; either way
the database is unchanged.  On success it returns the fetched-or-created
row and the database after the get-or-create and optional save. -/
def get_or_create_call (ed : EventData) (db : DB) : Option (CallRow × DB) :=
  let params := extractParams ed
  match pget params "CallSid" with
  | none => none
  | some call_sid =>
    if call_sid == "" then none
    else
      let from_number := pget params "From"
      let to_number := pget params "To"
      let direction := pget params "Direction"
      let call_status := pgetD params "CallStatus" ""
      match db.calls.find? (fun c => c.call_sid == call_sid) with
      | some call =>
        let call4 := updateCallFields call from_number to_number direction call_status
        some (call4, { db with calls := replaceCall db.calls call4 })
      | none =>
        match direction, from_number, to_number with
        | some d, some f, some t =>
          let call : CallRow :=
            { call_sid := call_sid, account_sid := "", direction := d,
              from_number := f, to_number := t, call_status := call_status,
              additional_data := .payload ed }
          some (call, { db with calls := db.calls ++ [call] })
        | _, _, _ => none

/-- `Kind.objects.create(...)` for the four call-event tables: fails
(`IntegrityError`) on a duplicate primary key, a `None` call reference or
a `None` timestamp; otherwise appends the row. -/
def insertCallEvent (table : List CallEventRow) (event_id : String)
    (call : Option CallRow) (timestamp : Option String) (ed : EventData) :
    Option (List CallEventRow) :=
  match call, timestamp with
  | some c, some ts =>
    if table.any (fun r => r.event_id == event_id) then none
    else some (table ++ [{ event_id := event_id, call_sid := c.call_sid,
                           timestamp := ts, additional_data := .payload ed }])
  | _, _ => none

/-- `ErrorEvent.objects.create(...)`: fails on a duplicate primary key or
a `None` timestamp; the call reference is nullable. -/
def insertErrorEvent (table : List ErrorEventRow) (event_id : String)
    (resource : Option String) (timestamp : Option String)
    (error_code error_message : String) (ed : EventData) :
    Option (List ErrorEventRow) :=
  match timestamp with
  | some ts =>
    if table.any (fun r => r.event_id == event_id) then none
    else some (table ++ [{ event_id := event_id, resource_sid := resource,
                           timestamp := ts, error_code := error_code,
                           error_message := error_message,
                           additional_data := .payload ed }])
  | none => none

/-- The event-type chain of `store_event_in_database` (lines 87-97): the
four call markers are tested first, the error flag only in the final
`elif`. -/
def storeEventType (is_error : Bool) (t : String) : Option String :=
  if strContains t "call.initiated" then some "initiated"
  else if strContains t "call.ringing" then some "ringing"
  else if strContains t "call.answer" then some "answered"
  else if strContains t "call.completed" then some "completed"
  else if is_error then some "error"
  else none

/-- The storage dispatch of `store_event_in_database` (lines 99-163):
write the event row for the computed type, with the error branch
resolving (or synthesising) the referenced call first; an unknown type
only logs.  Returns whether the block completed without raising, plus
the database as mutated so far (a placeholder call committed before a
failing error-row insert is kept). -/
def storeEventRow (event_type : Option String) (event_id : String)
    (call : Option CallRow) (timestamp : Option String) (ed : EventData)
    (db : DB) : Bool × DB :=
  if event_type == some "initiated" then
    match insertCallEvent db.initiated event_id call timestamp ed with
    | some tbl => (true, { db with initiated := tbl })
    | none => (false, db)
  else if event_type == some "ringing" then
    match insertCallEvent db.ringing event_id call timestamp ed with
    | some tbl => (true, { db with ringing := tbl })
    | none => (false, db)
  else if event_type == some "answered" then
    match insertCallEvent db.answered event_id call timestamp ed with
    | some tbl => (true, { db with answered := tbl })
    | none => (false, db)
  else if event_type == some "completed" then
    match insertCallEvent db.completed event_id call timestamp ed with
    | some tbl => (true, { db with completed := tbl })
    | none => (false, db)
  else if event_type == some "error" then
    let dd := ed.data.getD emptyDataField
    let error_code := dd.error_code.getD ""
    let error_message := dd.level.getD ""
    let correlation_sid := dd.correlation_sid.getD ""
    let p :=
      if !(correlation_sid == "") then
        match db.calls.find? (fun c => c.call_sid == correlation_sid) with
        | some c => (some c, db)
        | none =>
          let newCall : CallRow :=
            { call_sid := correlation_sid, account_sid := "",
              direction := "unknown", from_number := "", to_number := "",
              call_status := "",
              additional_data := .note "Created from error event correlation_sid" }
          (some newCall, { db with calls := db.calls ++ [newCall] })
      else (none, db)
    match insertErrorEvent p.2.errors event_id (p.1.map (fun c => c.call_sid))
        timestamp error_code error_message ed with
    | some tbl => (true, { p.2 with errors := tbl })
    | none => (false, p.2)
  else
    (true, db)

/-- `store_event_in_database` (lines 68-170): returns the Python pair
`(success, call)` plus the resulting database.  Any exception inside the
`try` yields `(False, None)` with all mutations committed so far kept. -/
def store_event_in_database (ed : EventData) (db : DB) :
    Bool × Option CallRow × DB :=
  let t := ed.type.getD ""
  let event_id := ed.id.getD ""
  let timestamp := parse_datetime (ed.time.getD "")
  let is_error := strContains t "error-logs.error.logged"
  if is_error then
    match storeEventRow (storeEventType true t) event_id none timestamp ed db with
    | (true, db1) => (true, none, db1)
    | (false, db1) => (false, none, db1)
  else
    match get_or_create_call ed db with
    | none => (false, none, db)
    | some (call, db1) =>
      match storeEventRow (storeEventType false t) event_id (some call) timestamp ed db1 with
      | (true, db2) => (true, some call, db2)
      | (false, db2) => (false, none, db2)

/-- The `new_error` projection emitted at lines 187-194. -/
structure ErrorEmit where
  event_id : String
  resource_sid : String
  timestamp : String
  error_code : String
  error_message : String
  deriving DecidableEq

/-- The `new_event` projection emitted at lines 217-227; `call_sid` may
be `None`. -/
structure CallEmit where
  event_id : String
  call_sid : Option String
  timestamp : String
  direction : String
  event_type : Option String
  from_number : String
  to_number : String
  call_status : String
  deriving DecidableEq

/-- A message broadcast to the subscribers, on one of the two channels. -/
inductive Emit
  | newError (e : ErrorEmit)
  | newEvent (e : CallEmit)
  deriving DecidableEq

/-- The timestamp field of a broadcast message. -/
def emitTimestamp : Emit → String
  | .newError e => e.timestamp
  | .newEvent e => e.timestamp

/-- The event-type chain of the broadcast path (lines 207-215): only the
four call markers, no error case. -/
def emitEventType (t : String) : Option String :=
  if strContains t "call.initiated" then some "initiated"
  else if strContains t "call.ringing" then some "ringing"
  else if strContains t "call.answer" then some "answered"
  else if strContains t "call.completed" then some "completed"
  else none

/-- The `new_error` payload built at lines 182-193; `now` stands for
`datetime.now().isoformat()`. -/
def buildErrorEmit (ed : EventData) (now : String) : ErrorEmit :=
  let dd := ed.data.getD emptyDataField
  { event_id := ed.id.getD "",
    resource_sid := dd.correlation_sid.getD "",
    timestamp := pyOr ed.time now,
    error_code := dd.error_code.getD "",
    error_message := dd.level.getD "WARNING" }

/-- The `new_event` payload built at lines 198-226. -/
def buildCallEmit (ed : EventData) (now : String) : CallEmit :=
  let params := extractParams ed
  let t := ed.type.getD ""
  { event_id := ed.id.getD "",
    call_sid := pget params "CallSid",
    timestamp := pyOr ed.time now,
    direction := pgetD params "Direction" "",
    event_type := emitEventType t,
    from_number := pgetD params "From" "",
    to_number := pgetD params "To" "",
    call_status := pgetD params "CallStatus" "" }

/-- `process_and_emit_event` (lines 173-241), the `Ingest` pipeline:
emit the projection for the payload's branch, then store; the returned
Bool is the Python return value, alongside the emitted messages and the
resulting database. -/
def process_and_emit_event (ed : EventData) (now : String) (db : DB) :
    Bool × List Emit × DB :=
  let t := ed.type.getD ""
  if strContains t "error-logs.error.logged" then
    let r := store_event_in_database ed db
    (r.1, [Emit.newError (buildErrorEmit ed now)], r.2.2)
  else
    let r := store_event_in_database ed db
    (r.1, [Emit.newEvent (buildCallEmit ed now)], r.2.2)

/-! ## Concrete payloads used by counterexamples and witnesses -/

/-- The parameters of the spec's §8 concrete scenario. -/
def scenarioParams : List (String × String) :=
  [("CallSid", "CA123"), ("From", "+1555"), ("To", "+1777"),
   ("Direction", "inbound"), ("CallStatus", "queued")]

/-- The spec's §8 concrete scenario payload. -/
def scenarioPayload : EventData :=
  { type := some "com.twilio.voice.call.initiated",
    id := some "EV100",
    time := some "2024-01-01T00:00:00Z",
    data := some { request := some { parameters := some scenarioParams },
                   error_code := none, level := none, correlation_sid := none },
    request := none }

/-- A well-formed call event whose parameters carry no `CallSid`. -/
def noSidPayload : EventData :=
  { type := some "com.twilio.voice.call.ringing",
    id := some "EV200",
    time := some "2024-01-01T00:01:00Z",
    data := some { request := some { parameters := some [("From", "+1555")] },
                   error_code := none, level := none, correlation_sid := none },
    request := none }

/-- A contrived payload whose type carries both the error marker and a
call marker. -/
def dualMarkerPayload : EventData :=
  { type := some "error-logs.error.logged.call.initiated",
    id := some "EV300",
    time := some "2024-01-01T00:02:00Z",
    data := some { request := none, error_code := some "90001",
                   level := some "ERROR", correlation_sid := some "CA123" },
    request := none }

/-- An error event whose `correlation_sid` names a call never seen. -/
def errorPayload : EventData :=
  { type := some "com.twilio.error-logs.error.logged",
    id := some "EV400",
    time := some "2024-01-01T00:03:00Z",
    data := some { request := none, error_code := some "90001",
                   level := some "ERROR", correlation_sid := some "CA999" },
    request := none }

/-- A payload whose type matches none of the five markers. -/
def unknownPayload : EventData :=
  { type := some "com.twilio.voice.recording.added",
    id := some "EV500",
    time := some "2024-01-01T00:04:00Z",
    data := some { request := some { parameters := some scenarioParams },
                   error_code := none, level := none, correlation_sid := none },
    request := none }

/-- A call event whose parameters carry a `CallSid` but no `From`, `To`
or `Direction` key at all. -/
def noFromPayload : EventData :=
  { type := some "com.twilio.voice.call.initiated",
    id := some "EV600",
    time := some "2024-01-01T00:05:00Z",
    data := some { request := some { parameters := some [("CallSid", "CA8")] },
                   error_code := none, level := none, correlation_sid := none },
    request := none }

/-- Parameters with `CallSid` set and `From`, `To`, `Direction` present
but empty. -/
def emptyFromParams : List (String × String) :=
  [("CallSid", "CA8"), ("From", ""), ("To", ""), ("Direction", "")]

/-- Like `noFromPayload` but with `From`, `To` and `Direction` present
and bound to the empty string. -/
def emptyFromPayload : EventData :=
  { type := some "com.twilio.voice.call.initiated",
    id := some "EV601",
    time := some "2024-01-01T00:05:00Z",
    data := some { request := some { parameters := some emptyFromParams },
                   error_code := none, level := none, correlation_sid := none },
    request := none }

/-- A call event whose `time` value is present but unparseable. -/
def badTimePayload : EventData :=
  { type := some "com.twilio.voice.call.ringing",
    id := some "EV700",
    time := some "not-a-date",
    data := some { request := some { parameters := some scenarioParams },
                   error_code := none, level := none, correlation_sid := none },
    request := none }

/-! ## Counterexamples to the claims as stated -/

/-- Claim C1 as stated is false: ingesting the spec's §8 scenario payload
twice leaves exactly one Call row and one event row, but the second
call's persistence step is not treated as success — the duplicate
primary-key insert raises and the pipeline returns failure. -/
theorem C1_counterexample :
    (process_and_emit_event scenarioPayload "NOW1" emptyDB).1 = true ∧
    (process_and_emit_event scenarioPayload "NOW1" emptyDB).2.2.calls.length = 1 ∧
    (process_and_emit_event scenarioPayload "NOW1" emptyDB).2.2.initiated.length = 1 ∧
    (process_and_emit_event scenarioPayload "NOW2"
        (process_and_emit_event scenarioPayload "NOW1" emptyDB).2.2).1 = false := by
  decide

/-- Claim C2 as stated is false: on a non-error payload lacking
`CallSid`, the pipeline does broadcast a `new_event` projection before
its persistence step fails. -/
theorem C2_counterexample :
    (process_and_emit_event noSidPayload "NOW1" emptyDB).1 = false ∧
    (process_and_emit_event noSidPayload "NOW1" emptyDB).2.1 ≠ [] := by
  decide

/-- Claim C3 as stated is false: a payload whose type contains both the
error marker and `call.initiated` is typed `initiated`, not `error`, in
the persistence path, and its store fails with nothing written. -/
theorem C3_counterexample :
    storeEventType true "error-logs.error.logged.call.initiated" = some "initiated" ∧
    store_event_in_database dualMarkerPayload emptyDB = (false, none, emptyDB) := by
  decide

/-- Claim C6 as stated is false: the placeholder Call synthesised for an
unknown `correlation_sid` carries the note `Created from error event
correlation_sid`, not the note text the claim states. -/
theorem C6_counterexample :
    (store_event_in_database errorPayload emptyDB).2.2.calls.map
        (fun c => c.additional_data) =
      [AdditionalData.note "Created from error event correlation_sid"] ∧
    AdditionalData.note "Created from error event correlation_sid" ≠
      AdditionalData.note "synthesized from error correlation" := by
  decide

/-- Claim C7 as stated is false: an unknown-kind non-error payload is not
dropped without persisting anything — the Call upsert still runs and a
Call row is written, with the store reporting success. -/
theorem C7_counterexample :
    (store_event_in_database unknownPayload emptyDB).1 = true ∧
    (store_event_in_database unknownPayload emptyDB).2.2.calls.length = 1 := by
  decide

/-- Claim C8 as stated is false: an absent `From` key does not behave as
the empty string in the call-upsert path — creation fails outright when
the key is absent (`None` in a NOT NULL column) yet succeeds when the
key is present with an empty value. -/
theorem C8_counterexample :
    get_or_create_call noFromPayload emptyDB = none ∧
    (get_or_create_call emptyFromPayload emptyDB).isSome = true := by
  decide

/-- Claim C9 as stated is false: a present but unparseable payload
timestamp is broadcast verbatim instead of being replaced by the
ingestion time. -/
theorem C9_counterexample :
    parse_datetime "not-a-date" = none ∧
    (process_and_emit_event badTimePayload "2024-06-01T00:00:00" emptyDB).2.1.map
        emitTimestamp = ["not-a-date"] := by
  decide

/-! ## General theorems -/

/-- Claim C5: whenever the persistence step fails, the pipeline catches
the error and returns failure (`PersistenceFailed`), and the projection
for the payload's branch has already been broadcast and is not rolled
back; the database ends in the state the persistence step left it. -/
theorem C5_broadcast_before_persist (ed : EventData) (now : String) (db : DB)
    (hfail : (store_event_in_database ed db).1 = false) :
    (process_and_emit_event ed now db).1 = false ∧
    (process_and_emit_event ed now db).2.1 =
      (if strContains (ed.type.getD "") "error-logs.error.logged" then
        [Emit.newError (buildErrorEmit ed now)]
      else [Emit.newEvent (buildCallEmit ed now)]) ∧
    (process_and_emit_event ed now db).2.2 = (store_event_in_database ed db).2.2 := by
  unfold process_and_emit_event
  cases h : strContains (ed.type.getD "") "error-logs.error.logged" <;>
    simp [h, hfail]

theorem C5_witness :
    (store_event_in_database noSidPayload emptyDB).1 = false ∧
    ((process_and_emit_event noSidPayload "NOW" emptyDB).1 = false ∧
      (process_and_emit_event noSidPayload "NOW" emptyDB).2.1 =
        (if strContains (noSidPayload.type.getD "") "error-logs.error.logged" then
          [Emit.newError (buildErrorEmit noSidPayload "NOW")]
        else [Emit.newEvent (buildCallEmit noSidPayload "NOW")]) ∧
      (process_and_emit_event noSidPayload "NOW" emptyDB).2.2 =
        (store_event_in_database noSidPayload emptyDB).2.2) :=
  ⟨by decide, C5_broadcast_before_persist noSidPayload "NOW" emptyDB (by decide)⟩

/-- Claim C2, amended: on a non-error payload whose extracted parameters
lack a truthy call identifier, the pipeline returns failure and persists
no row (the database is unchanged), but only after broadcasting the
`new_event` projection — the classification failure is detected inside
the persistence step, after the broadcast, and is fatal only for this
event. -/
theorem C2_amended (ed : EventData) (now : String) (db : DB)
    (herr : strContains (ed.type.getD "") "error-logs.error.logged" = false)
    (hsid : truthy (pget (extractParams ed) "CallSid") = false) :
    process_and_emit_event ed now db = (false, [Emit.newEvent (buildCallEmit ed now)], db) := by
  have hg : get_or_create_call ed db = none := by
    unfold get_or_create_call
    cases h : pget (extractParams ed) "CallSid" with
    | none => simp [h]
    | some s =>
      rw [h] at hsid
      simp only [truthy, Bool.not_eq_false'] at hsid
      simp only [beq_iff_eq] at hsid
      simp [h, hsid]
  have hs : store_event_in_database ed db = (false, none, db) := by
    unfold store_event_in_database
    simp [herr, hg]
  unfold process_and_emit_event
  simp [herr, hs]

theorem C2_amended_witness :
    process_and_emit_event noSidPayload "NOW" emptyDB =
      (false, [Emit.newEvent (buildCallEmit noSidPayload "NOW")], emptyDB) :=
  C2_amended noSidPayload "NOW" emptyDB (by decide) (by decide)

/-- Claim C3, amended: a payload whose type contains both the error
marker and `call.initiated` is broadcast as an Error (the broadcast path
checks the error marker first), but in the persistence path the
event-type chain checks the call markers first, so the event is typed
`initiated`; the Call upsert was skipped because the error marker was
detected, the event insert then fails on the missing call reference, and
the pipeline returns failure with the database unchanged. -/
theorem C3_amended (ed : EventData) (now : String) (db : DB)
    (herr : strContains (ed.type.getD "") "error-logs.error.logged" = true)
    (hini : strContains (ed.type.getD "") "call.initiated" = true) :
    storeEventType true (ed.type.getD "") = some "initiated" ∧
    process_and_emit_event ed now db = (false, [Emit.newError (buildErrorEmit ed now)], db) := by
  have hst : storeEventType true (ed.type.getD "") = some "initiated" := by
    unfold storeEventType
    simp [hini]
  have hrow : storeEventRow (storeEventType true (ed.type.getD "")) (ed.id.getD "") none
      (parse_datetime (ed.time.getD "")) ed db = (false, db) := by
    rw [hst]
    unfold storeEventRow insertCallEvent
    simp
  have hs : store_event_in_database ed db = (false, none, db) := by
    unfold store_event_in_database
    simp [herr, hrow]
  refine ⟨hst, ?_⟩
  unfold process_and_emit_event
  simp [herr, hs]

theorem C3_amended_witness :
    storeEventType true (dualMarkerPayload.type.getD "") = some "initiated" ∧
    process_and_emit_event dualMarkerPayload "NOW" emptyDB =
      (false, [Emit.newError (buildErrorEmit dualMarkerPayload "NOW")], emptyDB) :=
  C3_amended dualMarkerPayload "NOW" emptyDB (by decide) (by decide)

/-- Claim C9, amended: the pipeline broadcasts exactly one projection,
whose timestamp is the ingestion time exactly when the payload's `time`
is absent or the empty string; any other present value — parseable or
not — is broadcast verbatim. -/
theorem C9_amended (ed : EventData) (now : String) (db : DB) :
    ∃ ts, (process_and_emit_event ed now db).2.1.map emitTimestamp = [ts] ∧
      (ed.time = none → ts = now) ∧
      (ed.time = some "" → ts = now) ∧
      (∀ t, ed.time = some t → t ≠ "" → ts = t) := by
  refine ⟨pyOr ed.time now, ?_, ?_, ?_, ?_⟩
  · unfold process_and_emit_event
    cases h : strContains (ed.type.getD "") "error-logs.error.logged" <;>
      simp [h, emitTimestamp, buildErrorEmit, buildCallEmit]
  · intro h
    simp [h, pyOr]
  · intro h
    simp [h, pyOr]
  · intro t h hne
    simp [h, pyOr, hne]

theorem C9_amended_witness :
    ∃ ts, (process_and_emit_event badTimePayload "NOW" emptyDB).2.1.map emitTimestamp = [ts] ∧
      (badTimePayload.time = none → ts = "NOW") ∧
      (badTimePayload.time = some "" → ts = "NOW") ∧
      (∀ t, badTimePayload.time = some t → t ≠ "" → ts = t) :=
  C9_amended badTimePayload "NOW" emptyDB

/-- The event-type chain with the error flag false never yields
`error`. -/
theorem storeEventType_false_ne_error (t : String) :
    storeEventType false t ≠ some "error" := by
  unfold storeEventType
  split_ifs <;> simp_all

/-- A failing event-row write for a non-error type leaves the database
untouched: only the error branch can commit a partial mutation. -/
theorem storeEventRow_fail_db (event_type : Option String) (event_id : String)
    (call : Option CallRow) (timestamp : Option String) (ed : EventData) (db : DB)
    (hne : event_type ≠ some "error")
    (hfail : (storeEventRow event_type event_id call timestamp ed db).1 = false) :
    (storeEventRow event_type event_id call timestamp ed db).2 = db := by
  unfold storeEventRow at hfail ⊢
  split_ifs at hfail ⊢ with h1 h2 h3 h4 h5
  · cases h : insertCallEvent db.initiated event_id call timestamp ed <;> simp [h] at hfail ⊢
  · cases h : insertCallEvent db.ringing event_id call timestamp ed <;> simp [h] at hfail ⊢
  · cases h : insertCallEvent db.answered event_id call timestamp ed <;> simp [h] at hfail ⊢
  · cases h : insertCallEvent db.completed event_id call timestamp ed <;> simp [h] at hfail ⊢
  · exact absurd (by simpa using h5) hne

/-- Claim C10: persistence is not atomic per event — when the Call
upsert succeeds and the subsequent event-row write fails (for example on
a duplicate event identifier), `store_event_in_database` reports failure
with no call, yet the resulting database is exactly the post-upsert
state: the Call created or merged by the upsert is not rolled back. -/
theorem C10_upsert_not_rolled_back (ed : EventData) (db : DB) (call : CallRow) (db1 : DB)
    (herr : strContains (ed.type.getD "") "error-logs.error.logged" = false)
    (hget : get_or_create_call ed db = some (call, db1))
    (hfail : (storeEventRow (storeEventType false (ed.type.getD "")) (ed.id.getD "")
        (some call) (parse_datetime (ed.time.getD "")) ed db1).1 = false) :
    store_event_in_database ed db = (false, none, db1) := by
  have hdb : (storeEventRow (storeEventType false (ed.type.getD "")) (ed.id.getD "")
      (some call) (parse_datetime (ed.time.getD "")) ed db1).2 = db1 :=
    storeEventRow_fail_db _ _ _ _ _ _ (storeEventType_false_ne_error _) hfail
  have hrow : storeEventRow (storeEventType false (ed.type.getD "")) (ed.id.getD "")
      (some call) (parse_datetime (ed.time.getD "")) ed db1 = (false, db1) := by
    rw [Prod.ext_iff]
    exact ⟨hfail, hdb⟩
  unfold store_event_in_database
  simp [herr, hget, hrow]

/-- The row and database delivered with the second ingestion of the
spec's §8 scenario payload: the upsert leaves the database of the first
ingestion unchanged. -/
def scenarioCall : CallRow :=
  { call_sid := "CA123", account_sid := "", direction := "inbound",
    from_number := "+1555", to_number := "+1777", call_status := "queued",
    additional_data := .payload scenarioPayload }

def scenarioDB1 : DB := (process_and_emit_event scenarioPayload "NOW1" emptyDB).2.2

theorem C10_witness :
    store_event_in_database scenarioPayload scenarioDB1 = (false, none, scenarioDB1) :=
  C10_upsert_not_rolled_back scenarioPayload scenarioDB1 scenarioCall scenarioDB1
    (by decide) (by decide) (by decide)

/-- `get_or_create_call` touches only the `calls` table. -/
theorem get_or_create_call_tables (ed : EventData) (db : DB) (c : CallRow) (db1 : DB)
    (h : get_or_create_call ed db = some (c, db1)) :
    db1.initiated = db.initiated ∧ db1.ringing = db.ringing ∧ db1.answered = db.answered ∧
      db1.completed = db.completed ∧ db1.errors = db.errors := by
  unfold get_or_create_call at h
  cases hsid : pget (extractParams ed) "CallSid" with
  | none => simp [hsid] at h
  | some sid =>
    by_cases he : sid = ""
    · simp [hsid, he] at h
    · cases hf : List.find? (fun c => c.call_sid == sid) db.calls with
      | some call =>
        simp only [hsid, he, beq_iff_eq, if_false, hf, Option.some.injEq,
          Prod.mk.injEq] at h
        rw [← h.2]
        exact ⟨rfl, rfl, rfl, rfl, rfl⟩
      | none =>
        cases hd : pget (extractParams ed) "Direction" with
        | none => simp [hsid, he, hf, hd] at h
        | some d =>
          cases hfr : pget (extractParams ed) "From" with
          | none => simp [hsid, he, hf, hd, hfr] at h
          | some f =>
            cases hto : pget (extractParams ed) "To" with
            | none => simp [hsid, he, hf, hd, hfr, hto] at h
            | some t =>
              simp only [hsid, he, beq_iff_eq, if_false, hf, hd, hfr, hto,
                Option.some.injEq, Prod.mk.injEq] at h
              rw [← h.2]
              exact ⟨rfl, rfl, rfl, rfl, rfl⟩

/-- Claim C7, amended: a non-error payload whose type matches none of
the four call markers writes no event row — all five event tables are
left unchanged — but it is not dropped without persisting anything: the
Call upsert still runs (creating or merging a Call row) and the store
reports success with that call. -/
theorem C7_amended (ed : EventData) (db : DB) (call : CallRow) (db1 : DB)
    (herr : strContains (ed.type.getD "") "error-logs.error.logged" = false)
    (h1 : strContains (ed.type.getD "") "call.initiated" = false)
    (h2 : strContains (ed.type.getD "") "call.ringing" = false)
    (h3 : strContains (ed.type.getD "") "call.answer" = false)
    (h4 : strContains (ed.type.getD "") "call.completed" = false)
    (hget : get_or_create_call ed db = some (call, db1)) :
    store_event_in_database ed db = (true, some call, db1) ∧
    db1.initiated = db.initiated ∧ db1.ringing = db.ringing ∧
    db1.answered = db.answered ∧ db1.completed = db.completed ∧ db1.errors = db.errors := by
  have htype : storeEventType false (ed.type.getD "") = none := by
    unfold storeEventType
    simp [h1, h2, h3, h4]
  have hrow : storeEventRow none (ed.id.getD "") (some call)
      (parse_datetime (ed.time.getD "")) ed db1 = (true, db1) := by
    unfold storeEventRow
    simp
  refine ⟨?_, get_or_create_call_tables ed db call db1 hget⟩
  unfold store_event_in_database
  simp [herr, hget, htype, hrow]

def unknownCall : CallRow :=
  { call_sid := "CA123", account_sid := "", direction := "inbound",
    from_number := "+1555", to_number := "+1777", call_status := "queued",
    additional_data := .payload unknownPayload }

def unknownDB1 : DB := { emptyDB with calls := [unknownCall] }

theorem C7_amended_witness :
    store_event_in_database unknownPayload emptyDB = (true, some unknownCall, unknownDB1) ∧
    unknownDB1.initiated = emptyDB.initiated ∧ unknownDB1.ringing = emptyDB.ringing ∧
    unknownDB1.answered = emptyDB.answered ∧ unknownDB1.completed = emptyDB.completed ∧
    unknownDB1.errors = emptyDB.errors :=
  C7_amended unknownPayload emptyDB unknownCall unknownDB1
    (by decide) (by decide) (by decide) (by decide) (by decide) (by decide)

/-- Modelled from the spec's words (§3): a merged field is overwritten
only if the call's current value is empty and the new event supplies a
non-empty value.  Stated for comparison with the code's
`updateCallFields`. -/
def specMergeField (cur : String) (new : Option String) : String :=
  match new with
  | some s => if cur = "" ∧ s ≠ "" then s else cur
  | none => cur

/-- Modelled from the spec's words (§3): status is overwritten whenever
the new event supplies a non-empty status (last-write-wins). -/
def specMergeStatus (cur new : String) : String :=
  if new ≠ "" then new else cur

theorem updateCallFields_from_number (c : CallRow) (f t d : Option String) (s : String) :
    (updateCallFields c f t d s).from_number = specMergeField c.from_number f := by
  cases f <;> cases t <;> cases d <;>
    simp only [updateCallFields, specMergeField] <;> split_ifs <;> simp_all

theorem updateCallFields_to_number (c : CallRow) (f t d : Option String) (s : String) :
    (updateCallFields c f t d s).to_number = specMergeField c.to_number t := by
  cases f <;> cases t <;> cases d <;>
    simp only [updateCallFields, specMergeField] <;> split_ifs <;> simp_all

theorem updateCallFields_direction (c : CallRow) (f t d : Option String) (s : String) :
    (updateCallFields c f t d s).direction = specMergeField c.direction d := by
  cases f <;> cases t <;> cases d <;>
    simp only [updateCallFields, specMergeField] <;> split_ifs <;> simp_all

theorem updateCallFields_call_status (c : CallRow) (f t d : Option String) (s : String) :
    (updateCallFields c f t d s).call_status = specMergeStatus c.call_status s := by
  cases f <;> cases t <;> cases d <;>
    simp only [updateCallFields, specMergeStatus] <;> split_ifs <;> simp_all

theorem updateCallFields_call_sid (c : CallRow) (f t d : Option String) (s : String) :
    (updateCallFields c f t d s).call_sid = c.call_sid := by
  cases f <;> cases t <;> cases d <;>
    simp only [updateCallFields] <;> split_ifs <;> simp_all

theorem updateCallFields_additional_data (c : CallRow) (f t d : Option String) (s : String) :
    (updateCallFields c f t d s).additional_data = c.additional_data := by
  cases f <;> cases t <;> cases d <;>
    simp only [updateCallFields] <;> split_ifs <;> simp_all

/-- Claim C4: upserting an existing Call merges field-by-field —
`from_number`, `to_number` and `direction` are overwritten only when the
current value is empty and the new event supplies a non-empty value,
while `call_status` takes any non-empty new value (last-write-wins for
status only); the call identifier and the first-sighting additional-data
are never changed, and the database is updated in place. -/
theorem C4_merge_rule (ed : EventData) (db : DB) (row : CallRow) (sid : String)
    (hsid : pget (extractParams ed) "CallSid" = some sid) (hne : sid ≠ "")
    (hfind : db.calls.find? (fun c => c.call_sid == sid) = some row) :
    ∃ row2 db2, get_or_create_call ed db = some (row2, db2) ∧
      row2.from_number = specMergeField row.from_number (pget (extractParams ed) "From") ∧
      row2.to_number = specMergeField row.to_number (pget (extractParams ed) "To") ∧
      row2.direction = specMergeField row.direction (pget (extractParams ed) "Direction") ∧
      row2.call_status = specMergeStatus row.call_status (pgetD (extractParams ed) "CallStatus" "") ∧
      row2.call_sid = row.call_sid ∧
      row2.additional_data = row.additional_data ∧
      db2 = { db with calls := replaceCall db.calls row2 } := by
  refine ⟨updateCallFields row (pget (extractParams ed) "From") (pget (extractParams ed) "To")
    (pget (extractParams ed) "Direction") (pgetD (extractParams ed) "CallStatus" ""), _, ?_,
    updateCallFields_from_number row _ _ _ _,
    updateCallFields_to_number row _ _ _ _,
    updateCallFields_direction row _ _ _ _,
    updateCallFields_call_status row _ _ _ _,
    updateCallFields_call_sid row _ _ _ _,
    updateCallFields_additional_data row _ _ _ _, rfl⟩
  unfold get_or_create_call
  simp [hsid, hne, hfind]

/-- A database holding one call `CA1` with empty `from_number`, a filled
`to_number`, empty direction and status `queued`, for exercising the
merge rule. -/
def mergeRow : CallRow :=
  { call_sid := "CA1", account_sid := "", direction := "",
    from_number := "", to_number := "+1999", call_status := "queued",
    additional_data := .note "seed" }

def mergeDB : DB := { emptyDB with calls := [mergeRow] }

/-- Parameters of a later event for `CA1` supplying `From`, a
conflicting `To`, a direction and a new status. -/
def mergeParams : List (String × String) :=
  [("CallSid", "CA1"), ("From", "+1555"), ("To", "+1777"),
   ("Direction", "inbound"), ("CallStatus", "in-progress")]

/-- A later event for `CA1` carrying `mergeParams`. -/
def mergePayload : EventData :=
  { type := some "com.twilio.voice.call.answer",
    id := some "EV800",
    time := some "2024-01-01T00:06:00Z",
    data := some { request := some { parameters := some mergeParams },
                   error_code := none, level := none, correlation_sid := none },
    request := none }

theorem C4_merge_rule_witness :
    ∃ row2 db2, get_or_create_call mergePayload mergeDB = some (row2, db2) ∧
      row2.from_number = specMergeField mergeRow.from_number (pget (extractParams mergePayload) "From") ∧
      row2.to_number = specMergeField mergeRow.to_number (pget (extractParams mergePayload) "To") ∧
      row2.direction = specMergeField mergeRow.direction (pget (extractParams mergePayload) "Direction") ∧
      row2.call_status = specMergeStatus mergeRow.call_status (pgetD (extractParams mergePayload) "CallStatus" "") ∧
      row2.call_sid = mergeRow.call_sid ∧
      row2.additional_data = mergeRow.additional_data ∧
      db2 = { mergeDB with calls := replaceCall mergeDB.calls row2 } :=
  C4_merge_rule mergePayload mergeDB mergeRow "CA1" (by decide) (by decide) (by decide)

/-- Claim C8, amended: parameter extraction probes
`data.request.parameters` first (regardless of a top-level `request`),
then `request.parameters`, falling back to the empty mapping, and never
raises for a missing optional field; in the broadcast projection an
absent optional field defaults to the empty string, but in the
call-upsert path absent `From`, `To` or `Direction` keys are extracted
as null rather than the empty string, so creating a Call from such an
event fails instead of storing empty strings. -/
theorem C8_probing_and_defaults :
    (∀ (ed : EventData) (dd : DataField) (r : RequestData) (m : List (String × String)),
        ed.data = some dd → dd.request = some r → r.parameters = some m →
        extractParams ed = m) ∧
    (∀ (ed : EventData) (dd : DataField) (r : RequestData) (m : List (String × String)),
        ed.data = some dd → dd.request = none → ed.request = some r →
        r.parameters = some m → extractParams ed = m) ∧
    (∀ (ed : EventData) (r : RequestData) (m : List (String × String)),
        ed.data = none → ed.request = some r → r.parameters = some m →
        extractParams ed = m) ∧
    (∀ ed : EventData, ed.data = none → ed.request = none → extractParams ed = []) ∧
    (∀ (ed : EventData) (now : String),
        pget (extractParams ed) "From" = none →
        (buildCallEmit ed now).from_number = "") ∧
    (∀ (ed : EventData) (db : DB) (sid : String),
        pget (extractParams ed) "CallSid" = some sid → sid ≠ "" →
        pget (extractParams ed) "From" = none →
        db.calls.find? (fun c => c.call_sid == sid) = none →
        get_or_create_call ed db = none) := by
  refine ⟨?_, ?_, ?_, ?_, ?_, ?_⟩
  · intro ed dd r m h1 h2 h3
    unfold extractParams
    simp [h1, h2, h3]
  · intro ed dd r m h1 h2 h3 h4
    unfold extractParams topRequestParams
    simp [h1, h2, h3, h4]
  · intro ed r m h1 h2 h3
    unfold extractParams topRequestParams
    simp [h1, h2, h3]
  · intro ed h1 h2
    unfold extractParams topRequestParams
    simp [h1, h2]
  · intro ed now h
    unfold buildCallEmit pgetD
    simp [h]
  · intro ed db sid hsid hne hfrom hfind
    unfold get_or_create_call
    cases hd : pget (extractParams ed) "Direction" <;>
      cases hto : pget (extractParams ed) "To" <;>
      simp [hsid, hne, hfrom, hfind, hd, hto]

theorem C8_probing_and_defaults_witness :
    extractParams noFromPayload = [("CallSid", "CA8")] ∧
    (buildCallEmit noFromPayload "NOW").from_number = "" ∧
    get_or_create_call noFromPayload emptyDB = none :=
  ⟨C8_probing_and_defaults.1 noFromPayload
      { request := some { parameters := some [("CallSid", "CA8")] },
        error_code := none, level := none, correlation_sid := none }
      { parameters := some [("CallSid", "CA8")] } [("CallSid", "CA8")] rfl rfl rfl,
    C8_probing_and_defaults.2.2.2.2.1 noFromPayload "NOW" (by decide),
    C8_probing_and_defaults.2.2.2.2.2 noFromPayload emptyDB "CA8"
      (by decide) (by decide) (by decide) (by decide)⟩

/-- Re-applying the merge with exactly the values already stored is the
identity on the row. -/
theorem updateCallFields_self (c : CallRow) :
    updateCallFields c (some c.from_number) (some c.to_number) (some c.direction)
      c.call_status = c := by
  simp only [updateCallFields]
  split_ifs <;> rfl

/-- Claim C1, amended: ingesting the same well-formed initiated payload
twice from an empty store produces exactly one Call row and exactly one
event row, and the second ingestion leaves the database unchanged — but
its persistence step is not a success-no-op: the duplicate event
identifier makes the insert raise, and the pipeline reports failure. -/
theorem C1_amended (ed : EventData) (ty eid tm ts sid f t0 d now1 now2 : String)
    (hty : ed.type = some ty) (hid : ed.id = some eid) (htm : ed.time = some tm)
    (herr : strContains ty "error-logs.error.logged" = false)
    (hini : strContains ty "call.initiated" = true)
    (hts : parse_datetime tm = some ts)
    (hsid : pget (extractParams ed) "CallSid" = some sid) (hne : sid ≠ "")
    (hf : pget (extractParams ed) "From" = some f)
    (ht : pget (extractParams ed) "To" = some t0)
    (hd : pget (extractParams ed) "Direction" = some d) :
    ∃ db1 : DB,
      (process_and_emit_event ed now1 emptyDB).1 = true ∧
      (process_and_emit_event ed now1 emptyDB).2.2 = db1 ∧
      db1.calls.length = 1 ∧ db1.initiated.length = 1 ∧
      (process_and_emit_event ed now2 db1).1 = false ∧
      (process_and_emit_event ed now2 db1).2.2 = db1 := by
  have hbeq : (sid == "") = false := by simpa using hne
  set C : CallRow :=
    { call_sid := sid, account_sid := "", direction := d, from_number := f,
      to_number := t0, call_status := pgetD (extractParams ed) "CallStatus" "",
      additional_data := .payload ed } with hC
  set db1 : DB :=
    { calls := [C],
      initiated := [{ event_id := eid, call_sid := sid, timestamp := ts,
                      additional_data := .payload ed }],
      ringing := [], answered := [], completed := [], errors := [] } with hdb1
  have hg1 : get_or_create_call ed emptyDB = some (C, { emptyDB with calls := [C] }) := by
    unfold get_or_create_call
    simp [hsid, hbeq, hf, ht, hd, emptyDB]
  have hst : storeEventType false ty = some "initiated" := by
    unfold storeEventType
    simp [hini]
  have hrow1 : storeEventRow (some "initiated") eid (some C) (some ts) ed
      { emptyDB with calls := [C] } = (true, db1) := by
    unfold storeEventRow insertCallEvent
    simp [emptyDB, hdb1]
  have hs1 : store_event_in_database ed emptyDB = (true, some C, db1) := by
    unfold store_event_in_database
    simp [hty, herr, hid, htm, hts, hg1, hst, hrow1]
  have hp1 : process_and_emit_event ed now1 emptyDB =
      (true, [Emit.newEvent (buildCallEmit ed now1)], db1) := by
    unfold process_and_emit_event
    simp [hty, herr, hs1]
  have hfind2 : db1.calls.find? (fun c => c.call_sid == sid) = some C := by
    simp [hdb1, hC]
  have hupd : updateCallFields C (some f) (some t0) (some d)
      (pgetD (extractParams ed) "CallStatus" "") = C := updateCallFields_self C
  have hg2 : get_or_create_call ed db1 = some (C, db1) := by
    unfold get_or_create_call
    simp [hsid, hbeq, hf, ht, hd, hfind2, hupd, replaceCall, hdb1, hC]
  have hrow2 : storeEventRow (some "initiated") eid (some C) (some ts) ed db1 =
      (false, db1) := by
    unfold storeEventRow insertCallEvent
    simp [hdb1]
  have hs2 : store_event_in_database ed db1 = (false, none, db1) := by
    unfold store_event_in_database
    simp [hty, herr, hid, htm, hts, hg2, hst, hrow2]
  have hp2 : process_and_emit_event ed now2 db1 =
      (false, [Emit.newEvent (buildCallEmit ed now2)], db1) := by
    unfold process_and_emit_event
    simp [hty, herr, hs2]
  exact ⟨db1, by rw [hp1], by rw [hp1], by simp [hdb1], by simp [hdb1],
    by rw [hp2], by rw [hp2]⟩


theorem C1_amended_witness :
    ∃ db1 : DB,
      (process_and_emit_event scenarioPayload "NOW1" emptyDB).1 = true ∧
      (process_and_emit_event scenarioPayload "NOW1" emptyDB).2.2 = db1 ∧
      db1.calls.length = 1 ∧ db1.initiated.length = 1 ∧
      (process_and_emit_event scenarioPayload "NOW2" db1).1 = false ∧
      (process_and_emit_event scenarioPayload "NOW2" db1).2.2 = db1 :=
  C1_amended scenarioPayload "com.twilio.voice.call.initiated" "EV100"
    "2024-01-01T00:00:00Z" "2024-01-01T00:00:00Z" "CA123" "+1555" "+1777" "inbound"
    "NOW1" "NOW2" rfl rfl rfl (by decide) (by decide) (by decide) (by decide)
    (by decide) (by decide) (by decide) (by decide)

/-- Claim C6, amended: an Error event whose `correlation_sid` is
non-empty and names no existing Call creates a placeholder Call with
that identifier, direction `unknown` and all string fields empty, and
the stored ErrorEvent row references it — but the placeholder's
additional-data note reads `Created from error event correlation_sid`,
not the text the claim states; when the Call already exists it is used
unchanged and the calls table is untouched. -/
theorem C6_placeholder_call :
    (∀ (ed : EventData) (db : DB) (dd : DataField) (corr ts : String),
      strContains (ed.type.getD "") "error-logs.error.logged" = true →
      strContains (ed.type.getD "") "call.initiated" = false →
      strContains (ed.type.getD "") "call.ringing" = false →
      strContains (ed.type.getD "") "call.answer" = false →
      strContains (ed.type.getD "") "call.completed" = false →
      ed.data = some dd → dd.correlation_sid = some corr → corr ≠ "" →
      db.calls.find? (fun c => c.call_sid == corr) = none →
      db.errors.any (fun r => r.event_id == ed.id.getD "") = false →
      parse_datetime (ed.time.getD "") = some ts →
      store_event_in_database ed db =
        (true, none,
          { db with
            calls := db.calls ++
              [{ call_sid := corr, account_sid := "", direction := "unknown",
                 from_number := "", to_number := "", call_status := "",
                 additional_data := .note "Created from error event correlation_sid" }],
            errors := db.errors ++
              [{ event_id := ed.id.getD "", resource_sid := some corr, timestamp := ts,
                 error_code := dd.error_code.getD "",
                 error_message := dd.level.getD "",
                 additional_data := .payload ed }] })) ∧
    (∀ (ed : EventData) (db : DB) (dd : DataField) (corr ts : String) (c : CallRow),
      strContains (ed.type.getD "") "error-logs.error.logged" = true →
      strContains (ed.type.getD "") "call.initiated" = false →
      strContains (ed.type.getD "") "call.ringing" = false →
      strContains (ed.type.getD "") "call.answer" = false →
      strContains (ed.type.getD "") "call.completed" = false →
      ed.data = some dd → dd.correlation_sid = some corr → corr ≠ "" →
      db.calls.find? (fun cc => cc.call_sid == corr) = some c →
      db.errors.any (fun r => r.event_id == ed.id.getD "") = false →
      parse_datetime (ed.time.getD "") = some ts →
      store_event_in_database ed db =
        (true, none,
          { db with
            errors := db.errors ++
              [{ event_id := ed.id.getD "", resource_sid := some c.call_sid, timestamp := ts,
                 error_code := dd.error_code.getD "",
                 error_message := dd.level.getD "",
                 additional_data := .payload ed }] })) := by
  constructor
  · intro ed db dd corr ts herr h1 h2 h3 h4 hdd hcorr hcne hfind hdup hts
    have hst : storeEventType true (ed.type.getD "") = some "error" := by
      unfold storeEventType
      simp [h1, h2, h3, h4]
    have hbeq : (corr == "") = false := by simpa using hcne
    have hrow : storeEventRow (some "error") (ed.id.getD "") none
        (parse_datetime (ed.time.getD "")) ed db =
        (true,
          { db with
            calls := db.calls ++
              [{ call_sid := corr, account_sid := "", direction := "unknown",
                 from_number := "", to_number := "", call_status := "",
                 additional_data := .note "Created from error event correlation_sid" }],
            errors := db.errors ++
              [{ event_id := ed.id.getD "", resource_sid := some corr, timestamp := ts,
                 error_code := dd.error_code.getD "",
                 error_message := dd.level.getD "",
                 additional_data := .payload ed }] }) := by
      unfold storeEventRow insertErrorEvent
      simp [hdd, hcorr, hbeq, hfind, hdup, hts]
    unfold store_event_in_database
    simp [herr, hst, hrow]
  · intro ed db dd corr ts c herr h1 h2 h3 h4 hdd hcorr hcne hfind hdup hts
    have hst : storeEventType true (ed.type.getD "") = some "error" := by
      unfold storeEventType
      simp [h1, h2, h3, h4]
    have hbeq : (corr == "") = false := by simpa using hcne
    have hrow : storeEventRow (some "error") (ed.id.getD "") none
        (parse_datetime (ed.time.getD "")) ed db =
        (true,
          { db with
            errors := db.errors ++
              [{ event_id := ed.id.getD "", resource_sid := some c.call_sid, timestamp := ts,
                 error_code := dd.error_code.getD "",
                 error_message := dd.level.getD "",
                 additional_data := .payload ed }] }) := by
      unfold storeEventRow insertErrorEvent
      simp [hdd, hcorr, hbeq, hfind, hdup, hts]
    unfold store_event_in_database
    simp [herr, hst, hrow]


def errorDataField : DataField :=
  { request := none, error_code := some "90001", level := some "ERROR",
    correlation_sid := some "CA999" }

theorem C6_placeholder_call_witness :
    store_event_in_database errorPayload emptyDB =
      (true, none,
        { emptyDB with
          calls := emptyDB.calls ++
            [{ call_sid := "CA999", account_sid := "", direction := "unknown",
               from_number := "", to_number := "", call_status := "",
               additional_data := .note "Created from error event correlation_sid" }],
          errors := emptyDB.errors ++
            [{ event_id := errorPayload.id.getD "", resource_sid := some "CA999",
               timestamp := "2024-01-01T00:03:00Z",
               error_code := errorDataField.error_code.getD "",
               error_message := errorDataField.level.getD "",
               additional_data := .payload errorPayload }] }) :=
  C6_placeholder_call.1 errorPayload emptyDB errorDataField "CA999" "2024-01-01T00:03:00Z"
    (by decide) (by decide) (by decide) (by decide) (by decide) rfl rfl (by decide)
    rfl rfl (by decide)

end VoiceOps
